import Mathlib

/-!
Verification of the streaming outlier-detection evaluation loop
(`OutlierIsolationForest.py`).

The anomaly-scoring model (`clf.decision_function`) is an external
collaborator: `predict` is embedded as taking the already-computed score
batch directly.  The helper functions `flatten`, `performance` and
`outlier_stats` live in a `utils` module that is not part of the provided
source; they are modelled from the spec where needed.  Floats are embedded
as rationals plus an explicit not-a-number constructor.
-/

namespace OutlierIF

/-- A scalar metric value: either a rational number or the not-a-number
sentinel used by the source for undefined rates and missing data. -/
inductive Val where
  | nan : Val
  | num : ℚ → Val
deriving DecidableEq, Repr

/-- Errors the Python methods can raise: reading an attribute that was
never assigned, the explicit `ValueError` guard in `metrics`, and
out-of-range list indexing. -/
inductive MErr where
  | attrError : MErr
  | unsupportedBatchSize : MErr
  | indexError : MErr
deriving DecidableEq, Repr

/-- The mutable state of one `OutlierIsolationForest` session: the
attributes assigned in `__init__`, plus the `prediction` / `label`
attributes first assigned inside `predict` / `send_feedback` (hence
`Option`, absent before the first such call). -/
structure Session where
  threshold : ℚ
  N : ℕ
  predictions : List ℕ
  labels : List ℕ
  anomaly_score : List ℚ
  roll_window : ℕ
  metric : List Val
  prediction : Option (List ℕ)
  label : Option (List ℕ)
deriving DecidableEq, Repr

/-- `__init__`: threshold from configuration, empty history, counter 0,
rolling window 100, and the stored metric tuple initialised to 18
not-a-number entries. -/
def init (t : ℚ) : Session :=
  { threshold := t
    N := 0
    predictions := []
    labels := []
    anomaly_score := []
    roll_window := 100
    metric := List.replicate 18 Val.nan
    prediction := none
    label := none }

/-- `predict`: classify each score as 1 (outlier) iff it is strictly below
the threshold, append scores and predictions to the history (the source's
`append` followed by `flatten` keeps the history a flat list, i.e. list
concatenation), bump the counter by the batch size, and return the
prediction batch. -/
def predict (s : Session) (scores : List ℚ) : List ℕ × Session :=
  let pred := scores.map (fun x => if x < s.threshold then 1 else 0)
  (pred,
    { s with
      anomaly_score := s.anomaly_score ++ scores
      predictions := s.predictions ++ pred
      prediction := some pred
      N := s.N + pred.length })

/-- Confusion-matrix counts (true_negative, false_positive,
false_negative, true_positive) over positionally aligned (label,
prediction) pairs. -/
def confusion (pairs : List (ℕ × ℕ)) : ℕ × ℕ × ℕ × ℕ :=
  (pairs.countP (fun p => p.1 == 0 && p.2 == 0),
   pairs.countP (fun p => p.1 == 0 && p.2 == 1),
   pairs.countP (fun p => p.1 == 1 && p.2 == 0),
   pairs.countP (fun p => p.1 == 1 && p.2 == 1))

/-- Division resolving a zero denominator to the not-a-number sentinel
instead of raising. -/
def safeDiv (a b : ℚ) : Val :=
  if b = 0 then Val.nan else Val.num (a / b)

/-- F-beta score from precision and recall, not-a-number when either
input is the sentinel or the denominator vanishes. -/
def fbeta (b2 : ℚ) (p r : Val) : Val :=
  match p, r with
  | Val.num pq, Val.num rq =>
      if b2 * pq + rq = 0 then Val.nan
      else Val.num ((1 + b2) * pq * rq / (b2 * pq + rq))
  | _, _ => Val.nan

/-- Accuracy, precision, recall, F1, F2 derived from a confusion matrix,
with zero denominators resolved to the sentinel. -/
def rateList (c : ℕ × ℕ × ℕ × ℕ) : List Val :=
  match c with
  | (tn, fp, fn, tp) =>
    let p := safeDiv (tp : ℚ) ((tp : ℚ) + (fp : ℚ))
    let r := safeDiv (tp : ℚ) ((tp : ℚ) + (fn : ℚ))
    [safeDiv ((tp : ℚ) + (tn : ℚ)) ((tn : ℚ) + (fp : ℚ) + (fn : ℚ) + (tp : ℚ)),
     p, r, fbeta 1 p r, fbeta 4 p r]

/-- The trailing `min(w, length)` elements of a list, i.e. the rolling
window slice of the aligned history. -/
def tailWindow (l : List (ℕ × ℕ)) (w : ℕ) : List (ℕ × ℕ) :=
  l.drop (l.length - w)

/-- Modelled from the spec: the `performance` helper from the repository's
`utils` module is not part of the provided source.  Per the spec it
computes, over the positionally aligned (label, prediction) history, the
four confusion-matrix counts, the five cumulative rates, and the five
rolling rates over the last `min(roll_window, length)` pairs, zero
denominators resolving to the not-a-number sentinel. -/
def performance (labels preds : List ℕ) (w : ℕ) : List Val :=
  let pairs := labels.zip preds
  let c := confusion pairs
  match c with
  | (tn, fp, fn, tp) =>
    [Val.num (tn : ℚ), Val.num (fp : ℚ), Val.num (fn : ℚ), Val.num (tp : ℚ)]
      ++ rateList c ++ rateList (confusion (tailWindow pairs w))

/-- Modelled from the spec: the `outlier_stats` helper from the
repository's `utils` module is not part of the provided source.  Per the
spec it counts predicted outliers and labeled outliers over the aligned
history, rolling first then cumulative. -/
def outlier_stats (labels preds : List ℕ) (w : ℕ) : List Val :=
  let pairs := labels.zip preds
  let roll := tailWindow pairs w
  [Val.num ((roll.countP (fun p => p.2 == 1) : ℕ) : ℚ),
   Val.num ((roll.countP (fun p => p.1 == 1) : ℕ) : ℚ),
   Val.num ((pairs.countP (fun p => p.2 == 1) : ℕ) : ℚ),
   Val.num ((pairs.countP (fun p => p.1 == 1) : ℕ) : ℚ)]

/-- `send_feedback`: remember the truth batch in the `label` attribute,
append it to the label history, and recompute the stored 18-entry metric
tuple from the full aligned history.  The source performs no validation
of the truth batch. -/
def send_feedback (s : Session) (truth : List ℕ) : Session :=
  let newLabels := s.labels ++ truth
  { s with
    label := some truth
    labels := newLabels
    metric := performance newLabels s.predictions s.roll_window
      ++ outlier_stats newLabels s.predictions s.roll_window }

/-- The 23 gauge values returned by `metrics`, in source order. -/
structure Snapshot where
  is_outlier : Val
  anomaly_score : Val
  observation : Val
  threshold : Val
  label : Val
  accuracy_tot : Val
  precision_tot : Val
  recall_tot : Val
  f1_tot : Val
  f2_tot : Val
  accuracy_roll : Val
  precision_roll : Val
  recall_roll : Val
  f1_roll : Val
  f2_roll : Val
  true_negative : Val
  false_positive : Val
  false_negative : Val
  true_positive : Val
  nb_outliers_roll : Val
  nb_labels_roll : Val
  nb_outliers_tot : Val
  nb_labels_tot : Val
deriving DecidableEq, Repr

/-- Build the snapshot from the session state and the three lag-corrected
"current" values. -/
def mkSnap (s : Session) (pred decVal yTrue : Val) : Snapshot :=
  { is_outlier := pred
    anomaly_score := decVal
    observation := Val.num ((s.N : ℚ) - 1)
    threshold := Val.num s.threshold
    label := yTrue
    accuracy_tot := s.metric.getD 4 Val.nan
    precision_tot := s.metric.getD 5 Val.nan
    recall_tot := s.metric.getD 6 Val.nan
    f1_tot := s.metric.getD 7 Val.nan
    f2_tot := s.metric.getD 8 Val.nan
    accuracy_roll := s.metric.getD 9 Val.nan
    precision_roll := s.metric.getD 10 Val.nan
    recall_roll := s.metric.getD 11 Val.nan
    f1_roll := s.metric.getD 12 Val.nan
    f2_roll := s.metric.getD 13 Val.nan
    true_negative := s.metric.getD 0 Val.nan
    false_positive := s.metric.getD 1 Val.nan
    false_negative := s.metric.getD 2 Val.nan
    true_positive := s.metric.getD 3 Val.nan
    nb_outliers_roll := s.metric.getD 14 Val.nan
    nb_labels_roll := s.metric.getD 15 Val.nan
    nb_outliers_tot := s.metric.getD 16 Val.nan
    nb_labels_tot := s.metric.getD 17 Val.nan }

/-- `metrics`: guard on the last prediction batch (reading the
`prediction` attribute raises if `predict` was never called; a batch of
more than one element raises the explicit `ValueError`), then report the
lag-one values — second-to-last prediction and score, first element of
the last truth batch — or sentinels when `N == 1`.  Reading
`predictions[-2]`, `anomaly_score[-2]` or `label[0]` out of range, or the
`label` attribute before any feedback, raises. -/
def metrics (s : Session) : Except MErr Snapshot :=
  match s.prediction with
  | none => Except.error MErr.attrError
  | some ps =>
    if 1 < ps.length then Except.error MErr.unsupportedBatchSize
    else if s.N = 1 then
      Except.ok (mkSnap s Val.nan Val.nan Val.nan)
    else if s.predictions.length < 2 then Except.error MErr.indexError
    else if s.anomaly_score.length < 2 then Except.error MErr.indexError
    else
      match s.label with
      | none => Except.error MErr.attrError
      | some t =>
        if t.isEmpty then Except.error MErr.indexError
        else
          Except.ok (mkSnap s
            (Val.num ((s.predictions.getD (s.predictions.length - 2) 0 : ℕ) : ℚ))
            (Val.num (s.anomaly_score.getD (s.anomaly_score.length - 2) 0))
            (Val.num ((t.getD 0 0 : ℕ) : ℚ)))

/-- One external driver operation on a session. -/
inductive Op where
  | predictOp : List ℚ → Op
  | feedbackOp : List ℕ → Op
  | reportOp : Op

/-- Apply one driver operation to the session state.  `metrics` assigns
no attribute, so the report operation leaves the state unchanged. -/
def applyOp (s : Session) (o : Op) : Session :=
  match o with
  | Op.predictOp scores => (predict s scores).2
  | Op.feedbackOp truth => send_feedback s truth
  | Op.reportOp => s

/-- Run a session from construction through a list of driver operations. -/
def run (t : ℚ) (ops : List Op) : Session :=
  ops.foldl applyOp (init t)

/-- Total number of predictions requested by the predict operations of a
trace (the sum of the batch sizes). -/
def predTotal : List Op → ℕ
  | [] => 0
  | Op.predictOp scores :: rest => scores.length + predTotal rest
  | Op.feedbackOp _ :: rest => predTotal rest
  | Op.reportOp :: rest => predTotal rest

/-- A session after one single-observation predict call (threshold 0,
score −1): the smallest state on which `metrics` succeeds. -/
def oneShot : Session :=
  (predict (init 0) [(-1 : ℚ)]).2

/-- `oneShot` after a feedback call whose truth batch has length 2,
although the pending prediction batch has length 1. -/
def mismatchFb : Session :=
  send_feedback oneShot [0, 0]

/-- Two predictions in one batch, one feedback batch carrying both
labels, then a third single-observation prediction: a state where the
reported label disagrees with the label aligned to prediction N−2. -/
def cexSt : Session :=
  (predict (send_feedback (predict (init 0) [(-1 : ℚ), (-2 : ℚ)]).2 [0, 1]) [(-3 : ℚ)]).2

/-- A single-observation predict/feedback/predict session: the standard
driver protocol, on which the lag-one report succeeds. -/
def lagOkSt : Session :=
  (predict (send_feedback oneShot [1]) [(-2 : ℚ)]).2

/-- A session whose only predict call had a batch of three scores. -/
def batch3St : Session :=
  (predict (init 0) [(-1 : ℚ), (2 : ℚ), (-3 : ℚ)]).2

/-- Helper for C6: along any trace, the observation counter accumulates
exactly the predict batch sizes, and so does the prediction history. -/
theorem run_N_pred : ∀ (ops : List Op) (s : Session),
    (ops.foldl applyOp s).N = s.N + predTotal ops ∧
    (ops.foldl applyOp s).predictions.length = s.predictions.length + predTotal ops := by
  intro ops
  induction ops with
  | nil => intro s; simp [predTotal]
  | cons o rest ih =>
    intro s
    obtain ⟨ihN, ihP⟩ := ih (applyOp s o)
    cases o with
    | predictOp scores =>
      refine ⟨?_, ?_⟩
      · rw [List.foldl_cons, ihN]
        simp [applyOp, predict, predTotal]
        omega
      · rw [List.foldl_cons, ihP]
        simp [applyOp, predict, predTotal]
        omega
    | feedbackOp truth =>
      refine ⟨?_, ?_⟩
      · rw [List.foldl_cons, ihN]
        simp [applyOp, send_feedback, predTotal]
      · rw [List.foldl_cons, ihP]
        simp [applyOp, send_feedback, predTotal]
    | reportOp =>
      refine ⟨?_, ?_⟩
      · rw [List.foldl_cons, ihN]
        simp [applyOp, predTotal]
      · rw [List.foldl_cons, ihP]
        simp [applyOp, predTotal]

/-- C1 counterexample: in `cexSt` the session has N = 3 and `metrics`
succeeds, but the reported label is 0 (the first element of the last
truth batch) while the label positionally aligned with prediction N−2 is
1 — so the reported label does not correspond to prediction N−2. -/
theorem claim1_counterexample :
    cexSt.N = 3 ∧
    (metrics cexSt).map Snapshot.label = Except.ok (Val.num 0) ∧
    cexSt.labels.getD (cexSt.N - 2) 0 = 1 ∧
    Val.num 0 ≠ Val.num ((1 : ℕ) : ℚ) := by
  refine ⟨by decide, by rfl, by decide, by norm_num⟩

/-- C1 (amended): for a session with N ≥ 2 on which `metrics` succeeds
(last prediction batch of size ≤ 1, at least one feedback with a
nonempty truth batch, histories of length N), the reported prediction
and anomaly score are the ones at index N−2, the reported observation
is N−1, and the reported label is the FIRST ELEMENT OF THE MOST RECENT
FEEDBACK TRUTH BATCH — not, in general, the label aligned with
prediction N−2. -/
theorem claim1_amended (s : Session) (ps t : List ℕ)
    (hp : s.prediction = some ps) (hps : ps.length ≤ 1)
    (hn : 2 ≤ s.N)
    (hplen : s.predictions.length = s.N) (halen : s.anomaly_score.length = s.N)
    (hl : s.label = some t) (ht : t ≠ []) :
    ∃ snap, metrics s = Except.ok snap ∧
      snap.is_outlier = Val.num ((s.predictions.getD (s.N - 2) 0 : ℕ) : ℚ) ∧
      snap.anomaly_score = Val.num (s.anomaly_score.getD (s.N - 2) 0) ∧
      snap.label = Val.num ((t.getD 0 0 : ℕ) : ℚ) ∧
      snap.observation = Val.num ((s.N : ℚ) - 1) := by
  have h1 : ¬ 1 < ps.length := by omega
  have h2 : s.N ≠ 1 := by omega
  have h3 : ¬ s.predictions.length < 2 := by omega
  have h4 : ¬ s.anomaly_score.length < 2 := by omega
  have h5 : ¬ t.isEmpty := by simpa [List.isEmpty_iff] using ht
  have h6 : ¬ s.N < 2 := by omega
  have hm : metrics s = Except.ok (mkSnap s
      (Val.num ((s.predictions.getD (s.N - 2) 0 : ℕ) : ℚ))
      (Val.num (s.anomaly_score.getD (s.N - 2) 0))
      (Val.num ((t.getD 0 0 : ℕ) : ℚ))) := by
    simp [metrics, hp, h1, h2, h3, h4, h6, hl, h5, hplen, halen]
  exact ⟨_, hm, rfl, rfl, rfl, rfl⟩

/-- C1 witness: the amended statement holds on the concrete
single-observation predict/feedback/predict session `lagOkSt`. -/
theorem claim1_witness :
    ∃ snap, metrics lagOkSt = Except.ok snap ∧
      snap.is_outlier = Val.num ((lagOkSt.predictions.getD (lagOkSt.N - 2) 0 : ℕ) : ℚ) ∧
      snap.anomaly_score = Val.num (lagOkSt.anomaly_score.getD (lagOkSt.N - 2) 0) ∧
      snap.label = Val.num ((([1] : List ℕ).getD 0 0 : ℕ) : ℚ) ∧
      snap.observation = Val.num ((lagOkSt.N : ℚ) - 1) :=
  claim1_amended lagOkSt [1] [1] (by decide) (by decide) (by decide)
    (by decide) (by decide) (by decide) (by decide)

/-- C2 counterexample: with a pending prediction batch of length 1, a
feedback call with a truth batch of length 2 is not rejected — it
changes the label history, contradicting the claimed all-or-nothing
rejection. -/
theorem claim2_counterexample :
    oneShot.prediction = some [1] ∧ ([0, 0] : List ℕ).length ≠ 1 ∧
    mismatchFb.labels = [0, 0] ∧ mismatchFb.labels ≠ oneShot.labels := by
  refine ⟨by decide, by decide, by decide, by decide⟩

/-- C2 (amended): `send_feedback` performs no length validation at all:
every call — in particular one whose truth length differs from the
pending prediction batch length — succeeds, appends the truth to the
label history, records it as the last truth batch, and leaves
predictions, scores and the counter untouched. -/
theorem claim2_amended (s : Session) (ps truth : List ℕ)
    ( _hp : s.prediction = some ps) ( _hne : truth.length ≠ ps.length) :
    (send_feedback s truth).labels = s.labels ++ truth ∧
    (send_feedback s truth).predictions = s.predictions ∧
    (send_feedback s truth).anomaly_score = s.anomaly_score ∧
    (send_feedback s truth).N = s.N ∧
    (send_feedback s truth).label = some truth :=
  ⟨rfl, rfl, rfl, rfl, rfl⟩

/-- C2 witness: the amended statement at the concrete mismatched call
(truth batch [0, 0] against a pending batch of length 1). -/
theorem claim2_witness :
    (send_feedback oneShot [0, 0]).labels = oneShot.labels ++ [0, 0] ∧
    (send_feedback oneShot [0, 0]).predictions = oneShot.predictions ∧
    (send_feedback oneShot [0, 0]).anomaly_score = oneShot.anomaly_score ∧
    (send_feedback oneShot [0, 0]).N = oneShot.N ∧
    (send_feedback oneShot [0, 0]).label = some [0, 0] :=
  claim2_amended oneShot [1] [0, 0] (by decide) (by decide)

/-- C3 counterexample: after one prediction, a feedback call carrying
two labels leaves the session with 2 labels against 1 prediction — a
feedback call CAN make the label history longer than the prediction
history. -/
theorem claim3_counterexample :
    mismatchFb.labels.length = 2 ∧ mismatchFb.predictions.length = 1 ∧
    ¬ mismatchFb.labels.length ≤ mismatchFb.predictions.length := by
  refine ⟨by decide, by decide, by decide⟩

/-- C3 (amended): since `send_feedback` validates nothing, the invariant
`length(labels) ≤ length(predictions)` is preserved by a feedback call
only when the incoming truth batch fits the current label deficit
(`length(labels) + length(truth) ≤ length(predictions)`). -/
theorem claim3_amended (s : Session) (truth : List ℕ)
    (h : s.labels.length + truth.length ≤ s.predictions.length) :
    (send_feedback s truth).labels.length ≤ (send_feedback s truth).predictions.length := by
  simpa [send_feedback] using h

/-- C3 witness: the amended statement at the concrete well-behaved call
(one pending prediction, truth batch of length 1). -/
theorem claim3_witness :
    (send_feedback oneShot [0]).labels.length ≤ (send_feedback oneShot [0]).predictions.length :=
  claim3_amended oneShot [0] (by decide)

/-- C4 counterexample: on a session with empty aligned history where no
feedback has ever been applied (one prediction, no labels), the reported
true_negative count is the not-a-number sentinel, not 0: the metric
tuple is initialised to 18 sentinels, counts included. -/
theorem claim4_counterexample :
    oneShot.labels.length = 0 ∧
    (metrics oneShot).map Snapshot.true_negative = Except.ok Val.nan ∧
    Val.nan ≠ Val.num 0 := by
  refine ⟨by decide, by rfl, by simp⟩

/-- C4 (amended): when a feedback call computes metrics over an EMPTY
aligned history, the stored tuple has the four confusion counts 0, all
ten rates not-a-number, and the four outlier/label counts 0; but before
any feedback the stored tuple is 18 not-a-number entries — the count
fields are the sentinel then, not 0. -/
theorem claim4_amended (t0 : ℚ) (s : Session) (truth : List ℕ)
    (h : (s.labels ++ truth).zip s.predictions = []) :
    (init t0).metric = List.replicate 18 Val.nan ∧
    (send_feedback s truth).metric =
      [Val.num 0, Val.num 0, Val.num 0, Val.num 0] ++ List.replicate 10 Val.nan
        ++ [Val.num 0, Val.num 0, Val.num 0, Val.num 0] := by
  refine ⟨rfl, ?_⟩
  simp [send_feedback, performance, outlier_stats, h, confusion, tailWindow,
    rateList, safeDiv, fbeta, List.replicate]

/-- C4 witness: the amended statement at a concrete feedback call onto a
session with no predictions (aligned history stays empty). -/
theorem claim4_witness :
    (init (0 : ℚ)).metric = List.replicate 18 Val.nan ∧
    (send_feedback (init 0) [0]).metric =
      [Val.num 0, Val.num 0, Val.num 0, Val.num 0] ++ List.replicate 10 Val.nan
        ++ [Val.num 0, Val.num 0, Val.num 0, Val.num 0] :=
  claim4_amended 0 (init 0) [0] (by decide)

/-- C5: whenever the most recent prediction batch has more than one
element, `metrics` fails with the unsupported-batch-size error, and a
report operation never modifies the session state. -/
theorem claim5_batch_guard (s : Session) (ps : List ℕ)
    (hp : s.prediction = some ps) (h : 1 < ps.length) :
    metrics s = Except.error MErr.unsupportedBatchSize ∧ applyOp s Op.reportOp = s := by
  refine ⟨?_, rfl⟩
  simp [metrics, hp, h]

/-- C5 witness: the guard fires on the concrete session whose only
predict call had a batch of three scores. -/
theorem claim5_witness :
    metrics batch3St = Except.error MErr.unsupportedBatchSize ∧
    applyOp batch3St Op.reportOp = batch3St :=
  claim5_batch_guard batch3St [1, 0, 1] (by decide) (by decide)

/-- C6: after any trace of driver operations, the observation counter
equals the total number of predictions requested by the predict calls
(the sum of the batch sizes) and equals the length of the prediction
history; and no single operation ever decreases the counter. -/
theorem claim6_counter_invariant (t : ℚ) (ops : List Op) :
    (run t ops).N = predTotal ops ∧
    (run t ops).predictions.length = (run t ops).N ∧
    ∀ (s : Session) (o : Op), s.N ≤ (applyOp s o).N := by
  obtain ⟨h1, h2⟩ := run_N_pred ops (init t)
  have hi1 : (init t).N = 0 := rfl
  have hi2 : (init t).predictions.length = 0 := rfl
  refine ⟨?_, ?_, ?_⟩
  · simp only [run]
    rw [h1, hi1, Nat.zero_add]
  · simp only [run]
    rw [h1, h2, hi1, hi2]
  · intro s o
    cases o with
    | predictOp scores => simp [applyOp, predict]
    | feedbackOp truth => simp [applyOp, send_feedback]
    | reportOp => exact le_refl _

/-- C7: `predict` classifies each score of the batch independently: the
returned batch has the length of the score batch, and its i-th entry is
1 exactly when the i-th score is strictly below the threshold, 0
otherwise. -/
theorem claim7_classifier (s : Session) (scores : List ℚ) (i : ℕ) (h : i < scores.length) :
    ((predict s scores).1).length = scores.length ∧
    (((predict s scores).1).getD i 0 = 1 ↔ scores.getD i 0 < s.threshold) ∧
    (((predict s scores).1).getD i 0 = 0 ↔ ¬ scores.getD i 0 < s.threshold) := by
  refine ⟨by simp [predict], ?_, ?_⟩ <;>
    simp [predict, List.getD_eq_getElem?_getD, List.getElem?_map,
      List.getElem?_eq_getElem h]

/-- C7 witness: the spec's scenario — threshold 0 and scores
[−0.1, 0.2, −0.3] yield predictions [1, 0, 1] — together with the
classifier characterisation instantiated at index 0. -/
theorem claim7_witness :
    (0 : ℕ) < ([-(1 : ℚ)/10, 2/10, -(3 : ℚ)/10] : List ℚ).length ∧
    (predict (init 0) [-(1 : ℚ)/10, 2/10, -(3 : ℚ)/10]).1 = [1, 0, 1] ∧
    (((predict (init 0) [-(1 : ℚ)/10, 2/10, -(3 : ℚ)/10]).1).getD 0 0 = 1 ↔
      ([-(1 : ℚ)/10, 2/10, -(3 : ℚ)/10] : List ℚ).getD 0 0 < (init (0 : ℚ)).threshold) :=
  ⟨by simp, by norm_num [predict, init],
   (claim7_classifier (init 0) [-(1 : ℚ)/10, 2/10, -(3 : ℚ)/10] 0 (by simp)).2.1⟩

/-- C8: on a session with exactly one prediction ever made (N = 1, its
batch a single element), `metrics` succeeds and reports observation 0
and the not-a-number sentinel for the prediction, the anomaly score and
the label. -/
theorem claim8_first_observation (s : Session) (ps : List ℕ)
    (hp : s.prediction = some ps) (hl : ps.length = 1) (hn : s.N = 1) :
    ∃ snap, metrics s = Except.ok snap ∧
      snap.observation = Val.num 0 ∧
      snap.is_outlier = Val.nan ∧
      snap.anomaly_score = Val.nan ∧
      snap.label = Val.nan := by
  have h1 : ¬ 1 < ps.length := by omega
  refine ⟨mkSnap s Val.nan Val.nan Val.nan, ?_, ?_, rfl, rfl, rfl⟩
  · simp [metrics, hp, h1, hn]
  · simp [mkSnap, hn]

/-- C8 witness: the statement at the concrete session after one
single-observation prediction. -/
theorem claim8_witness :
    ∃ snap, metrics oneShot = Except.ok snap ∧
      snap.observation = Val.num 0 ∧
      snap.is_outlier = Val.nan ∧
      snap.anomaly_score = Val.nan ∧
      snap.label = Val.nan :=
  claim8_first_observation oneShot [1] (by decide) (by decide) (by decide)

/-- C9: a report operation leaves the session state unchanged, so two
successive `metrics` calls with no intervening predict or feedback
return identical snapshots, after any trace of operations. -/
theorem claim9_report_idempotent (t : ℚ) (ops : List Op) :
    run t (ops ++ [Op.reportOp]) = run t ops ∧
    metrics (run t (ops ++ [Op.reportOp])) = metrics (run t ops) := by
  have h : run t (ops ++ [Op.reportOp]) = run t ops := by
    simp [run, List.foldl_append, applyOp]
  exact ⟨h, by rw [h]⟩

/-- C10: on a freshly constructed session the `prediction` attribute was
never assigned, so `metrics` fails with an attribute error and never
returns a snapshot. -/
theorem claim10_fresh_session_report (t : ℚ) :
    metrics (init t) = Except.error MErr.attrError ∧
    ∀ snap, metrics (init t) ≠ Except.ok snap := by
  refine ⟨rfl, ?_⟩
  intro snap h
  simp [metrics, init] at h

end OutlierIF
